import Mathlib

/-!
Verification development for the Lingora Chrome extension (src/api.js,
src/background.js, src/content.js): a shallow embedding of the token store,
the API request pipeline with 401-triggered refresh, the background message
dispatcher, and the auth-synchronization protocol with the companion web app,
together with theorems settling the specification's claims about them.
-/

namespace Lingora

/-- An opaque user-profile object stored alongside the access token.
JS objects are always truthy, which the wrapper structure reflects. -/
structure UserProf where
  name : String
deriving DecidableEq, Repr

/-- JS truthiness of a nullable string: null/undefined and the empty string
are falsy, every other string is truthy. -/
def truthyS : Option String → Bool
  | none => false
  | some s => s != ""

/-- The JS idiom `x || null` on a nullable string: collapses the falsy empty
string to null, leaves truthy strings alone. -/
def jsOrNull : Option String → Option String
  | none => none
  | some s => if s == "" then none else some s

/-- The slice of chrome.storage.local owned by the token store:
the `accessToken` and `user` keys (absent key = `none`). -/
structure ExtStore where
  accessToken : Option String
  user : Option UserProf
deriving DecidableEq, Repr

/-- src/api.js getAuthToken: reads `accessToken` and returns `result.accessToken || null`. -/
def getAuthToken (st : ExtStore) : Option String :=
  jsOrNull st.accessToken

/-- src/api.js setAuthToken: writes the `accessToken` key only. -/
def setAuthToken (st : ExtStore) (token : String) : ExtStore :=
  { st with accessToken := some token }

/-- src/api.js clearAuthToken: removes both the `accessToken` and `user` keys. -/
def clearAuthToken (_st : ExtStore) : ExtStore :=
  { accessToken := none, user := none }

/-- An HTTP response to the main request: its status code and the optional
`message` field of its parsed body. -/
structure HttpResp where
  status : Nat
  msgField : Option String
deriving DecidableEq, Repr

/-- response.ok: status in the 200-299 range. -/
def respOk (r : HttpResp) : Bool :=
  200 ≤ r.status && r.status ≤ 299

/-- src/api.js line 98: the error message thrown for a non-ok response,
`data.message || "Request failed with status <status>"`. -/
def errMsg (r : HttpResp) : String :=
  match r.msgField with
  | some m => if m == "" then "Request failed with status " ++ toString r.status else m
  | none => "Request failed with status " ++ toString r.status

/-- Outcome of one run of apiRequest: the parsed successful response, a thrown
error message, or exhaustion of the scripted server trace. -/
inductive Outcome where
  | success (r : HttpResp)
  | err (msg : String)
  | noResponse
deriving DecidableEq, Repr

/-- Result of running apiRequest against a scripted server: the final token
store, the outcome surfaced to the caller, and how many token-refresh
attempts were performed. -/
structure RunResult where
  store : ExtStore
  outcome : Outcome
  refreshAttempts : Nat
deriving DecidableEq, Repr

/-- src/api.js apiRequest (lines 45-106) together with refreshToken
(lines 111-130), run against a scripted server: `resps` lists the server's
responses to successive sends of the main request, `refreshes` lists the
outcomes of successive refresh attempts (`some newToken` when the refresh
endpoint returns ok with `metaData.accessToken`, `none` on any failure).
On a 401 with auth not skipped the code refreshes and, on refresh success,
re-issues the same request via `return apiRequest(endpoint, options)`; on
refresh failure it clears the stored credentials and throws the
session-expired error. Nothing in the code marks the retry, so the retried
request goes through the very same 401 branch again. -/
def apiRequest (skipAuth : Bool) : ExtStore → List HttpResp → List (Option String) → RunResult
  | st, [], _ => ⟨st, Outcome.noResponse, 0⟩
  | st, r :: rest, refreshes =>
    if r.status == 401 && !skipAuth then
      match refreshes with
      | some newTok :: rrest =>
        let res := apiRequest skipAuth (setAuthToken st newTok) rest rrest
        { res with refreshAttempts := res.refreshAttempts + 1 }
      | _ =>
        ⟨clearAuthToken st, Outcome.err "Session expired. Please log in again.", 1⟩
    else
      if respOk r then ⟨st, Outcome.success r, 0⟩
      else ⟨st, Outcome.err (errMsg r), 0⟩

/-- Describes a scripted run in which the pipeline eventually reaches a 401
whose refresh attempt fails (every earlier 401's refresh succeeded). -/
def reachesFailedRefresh : List HttpResp → List (Option String) → Bool
  | [], _ => false
  | r :: rest, some _ :: rrest => r.status == 401 && reachesFailedRefresh rest rrest
  | r :: _, none :: _ => r.status == 401
  | r :: _, [] => r.status == 401

/-- A request body as supplied by a caller of apiRequest: a JSON-serializable
value or a FormData payload (both carried opaquely). -/
inductive ReqBody where
  | jsonVal (v : String)
  | formData (fd : String)
deriving DecidableEq, Repr

/-- The body actually handed to fetch: a JSON.stringify result or a FormData
object passed through untouched. -/
inductive SentBody where
  | jsonString (v : String)
  | formData (fd : String)
deriving DecidableEq, Repr

/-- src/api.js lines 67-69: the caller's body is serialized with
JSON.stringify exactly when it is present and not a FormData instance. -/
def serializeBody : ReqBody → SentBody
  | ReqBody.jsonVal v => SentBody.jsonString v
  | ReqBody.formData fd => SentBody.formData fd

/-- A JS header object, as an ordered list of key/value pairs with unique keys. -/
abbrev Headers := List (String × String)

/-- Assignment `h[k] = v` on a JS object: replaces the value of an existing
key, otherwise appends the new entry. -/
def setKey (h : Headers) (k v : String) : Headers :=
  if h.any (fun p => p.1 == k) then
    h.map (fun p => if p.1 == k then (k, v) else p)
  else h ++ [(k, v)]

/-- Object spread of `b` over `a`: every entry of `b` is assigned on top of `a`,
so keys of `b` override keys of `a`. -/
def mergeObj (a b : Headers) : Headers :=
  b.foldl (fun acc p => setKey acc p.1 p.2) a

/-- Number of entries of a header object with the given key. -/
def countKey (h : Headers) (k : String) : Nat :=
  (h.filter (fun p => p.1 == k)).length

/-- The options object passed to apiRequest: optional method, optional
caller-supplied headers object, optional body, and the skipAuth flag. -/
structure ReqOptions where
  method : Option String
  headers : Option Headers
  body : Option ReqBody
  skipAuth : Bool
deriving DecidableEq, Repr

/-- src/api.js lines 51-58: the headers object apiRequest constructs —
a Content-Type: application/json default, the caller's headers spread over
it, then Authorization: Bearer <token> assigned when a token exists and
auth is not skipped. -/
def buildHeaders (opts : ReqOptions) (token : Option String) : Headers :=
  let base := mergeObj [("Content-Type", "application/json")] (opts.headers.getD [])
  match token with
  | some t => if !opts.skipAuth then setKey base "Authorization" ("Bearer " ++ t) else base
  | none => base

/-- src/api.js lines 60-65: the headers field of the fetchOptions object.
The trailing `...options` spread re-assigns every caller option on top of the
constructed object, so when the caller supplied a headers object it replaces
the constructed headers (Authorization included) wholesale. -/
def fetchHeaders (opts : ReqOptions) (st : ExtStore) : Headers :=
  let token := if opts.skipAuth then none else getAuthToken st
  match opts.headers with
  | some h => h
  | none => buildHeaders opts token

/-- src/api.js lines 60-69: the body field of the fetchOptions object — the
caller's body arrives via the `...options` spread and is then replaced by its
JSON serialization unless it is FormData. -/
def fetchBody (opts : ReqOptions) : Option SentBody :=
  opts.body.map serializeBody

/-- src/api.js uploadImage (lines 233-243): a POST of a FormData payload with
an empty caller headers object (`headers: \x7b\x7d` so the browser can pick the
multipart boundary). -/
def uploadImageOpts (fd : String) : ReqOptions :=
  { method := some "POST", headers := some [], body := some (ReqBody.formData fd), skipAuth := false }

/-- Auth snapshot reported by the script injected into the web app page:
the page's localStorage accessToken and the user held in its auth-storage
blob. The injected getAuthState returns null (modelled as `none` one level
up) when reading localStorage throws. -/
structure WebAuth where
  accessToken : Option String
  user : Option UserProf
deriving DecidableEq, Repr

/-- Messages observable during one reconciliation cycle: `syncAuth` requests
sent to the background (which mutate the extension's store) and
LINGORA_SET_WEB_AUTH pushes posted to the page. -/
inductive SyncMsg where
  | syncAuth (accessToken : Option String) (user : Option UserProf)
  | setWebAuth (accessToken : Option String) (user : Option UserProf)
deriving DecidableEq, Repr

/-- True exactly for the LINGORA_SET_WEB_AUTH push message to the page. -/
def isPushMsg : SyncMsg → Bool
  | SyncMsg.setWebAuth _ _ => true
  | SyncMsg.syncAuth _ _ => false

/-- src/background.js handleMessage, case syncAuth (lines 64-75): a truthy
accessToken stores both keys in one chrome.storage.local.set call; a falsy
one removes both keys. -/
def handleSyncAuth (accessToken : Option String) (user : Option UserProf) (_st : ExtStore) : ExtStore :=
  if truthyS accessToken then { accessToken := accessToken, user := user }
  else { accessToken := none, user := none }

/-- src/background.js handleMessage, case checkAuth (lines 56-62): the auth
snapshot of the extension itself. -/
structure AuthCheck where
  isAuthenticated : Bool
  accessToken : Option String
  user : Option UserProf
deriving DecidableEq, Repr

/-- src/background.js checkAuth: `!!result.accessToken`,
`result.accessToken || null`, `result.user || null`. -/
def checkAuth (st : ExtStore) : AuthCheck :=
  { isAuthenticated := truthyS st.accessToken
    accessToken := jsOrNull st.accessToken
    user := st.user }

/-- src/content.js lines 114-131: the if/else-if chain of the
LINGORA_WEB_AUTH_DATA handler — adopt the web app's credential when it has a
truthy token the extension lacks or differs from, else push the extension's
credential to the page when the extension is authenticated and the web app
is not (or its snapshot is null). The adopt branch's syncAuth round-trip is
applied to the store via the background handler. -/
def syncAuthStep1 (web : Option WebAuth) (st : ExtStore) : ExtStore × List SyncMsg :=
  match web with
  | some w =>
    if truthyS w.accessToken then
      if !(checkAuth st).isAuthenticated || (checkAuth st).accessToken != w.accessToken then
        (handleSyncAuth w.accessToken w.user st, [SyncMsg.syncAuth w.accessToken w.user])
      else (st, [])
    else if (checkAuth st).isAuthenticated then
      (st, [SyncMsg.setWebAuth (checkAuth st).accessToken (checkAuth st).user])
    else (st, [])
  | none =>
    if (checkAuth st).isAuthenticated then
      (st, [SyncMsg.setWebAuth (checkAuth st).accessToken (checkAuth st).user])
    else (st, [])

/-- src/content.js line 134: `extAuth.isAuthenticated && webAuth &&
!webAuth.accessToken`, evaluated on the extension snapshot captured before
the if/else-if chain ran. -/
def webLoggedOutSignal (web : Option WebAuth) (st : ExtStore) : Bool :=
  (checkAuth st).isAuthenticated &&
    (match web with
     | some w => !(truthyS w.accessToken)
     | none => false)

/-- src/content.js LINGORA_WEB_AUTH_DATA handler (lines 108-142): one
reconciliation cycle. It runs the adopt/push chain, then the separate
web-app-logged-out check, which sends `syncAuth` with a null accessToken
(clearing the extension's stored credential via the background handler).
Returns the extension store after the cycle and the messages sent. -/
def syncAuthWithWebApp (web : Option WebAuth) (st : ExtStore) : ExtStore × List SyncMsg :=
  let s1 := syncAuthStep1 web st
  if webLoggedOutSignal web st then
    (handleSyncAuth none none s1.1, s1.2 ++ [SyncMsg.syncAuth none none])
  else s1

/-- src/content.js LINGORA_INVALID_TOKEN handler (lines 143-152): send
`syncAuth` with a null accessToken to the background; no message is posted
to the page. -/
def handleInvalidToken (st : ExtStore) : ExtStore × List SyncMsg :=
  (handleSyncAuth none none st, [SyncMsg.syncAuth none none])

/-- The metaData payload of a login response: the new access token and user
profile, either possibly absent. -/
structure LoginResp where
  accessToken : Option String
  user : Option UserProf
deriving DecidableEq, Repr

/-- src/api.js api.login (lines 140-153) storage effects: the sequence of
chrome.storage.local states a concurrent reader can observe. When
`data.metaData && data.metaData.accessToken` is truthy the code performs two
separate writes — setAuthToken(accessToken), then set(\x7buser\x7d) — so three
states are observable; otherwise the store is untouched. -/
def loginStates (metaData : Option LoginResp) (st : ExtStore) : List ExtStore :=
  match metaData with
  | some md =>
    if truthyS md.accessToken then
      match md.accessToken with
      | some tok =>
        let s1 := setAuthToken st tok
        let s2 := { s1 with user := md.user }
        [st, s1, s2]
      | none => [st]
    else [st]
  | none => [st]

/-- src/api.js refreshToken (lines 111-130) storage effects on success: a
single setAuthToken write of the new token; the `user` key is not touched. -/
def refreshStates (newTok : String) (st : ExtStore) : List ExtStore :=
  [st, setAuthToken st newTok]

/-- src/background.js syncAuth storage effects: one chrome.storage.local call
(a single set of both keys, or a single remove of both keys), so exactly one
state transition is observable. -/
def syncAuthStates (accessToken : Option String) (user : Option UserProf) (st : ExtStore) : List ExtStore :=
  [st, handleSyncAuth accessToken user st]

/-- Action discriminator of a message arriving at the background dispatcher. -/
inductive Action where
  | lookupWord
  | translatePhrase
  | getStudySets
  | createStudySet
  | addFlashcard
  | login
  | googleLogin
  | uploadImage
  | logout
  | getCurrentUser
  | checkAuth
  | syncAuth
  | openPopup
  | playAudio
  | unknown (name : String)
deriving DecidableEq, Repr

/-- A message arriving at the background dispatcher: its action tag, the
optional url field used by playAudio, and the optional credential fields
used by syncAuth. Other payload fields are opaque to the dispatcher. -/
structure MsgRequest where
  action : Action
  url : Option String
  accessToken : Option String
  user : Option UserProf
deriving DecidableEq, Repr

/-- Outcome of one awaited api call as the dispatcher observes it: a result
value (carried opaquely) or a thrown error message. -/
abbrev ApiOutcome := Except String String

/-- Scripted outcomes of the api calls (and the playAudio helper) the
dispatcher awaits; a thrown error propagates to the dispatcher's catch. -/
structure ApiOracle where
  lookupWord : ApiOutcome
  translatePhrase : ApiOutcome
  getStudySets : ApiOutcome
  createStudySet : ApiOutcome
  addFlashcard : ApiOutcome
  login : ApiOutcome
  googleLogin : ApiOutcome
  uploadImage : ApiOutcome
  logout : ApiOutcome
  playAudio : ApiOutcome
deriving Repr

/-- Payload of a non-error dispatcher response. -/
inductive RespPayload where
  | data (v : String)
  | userData (u : Option UserProf)
  | authState (a : AuthCheck)
  | success
deriving DecidableEq, Repr

/-- A response delivered to the sender: the operation's result, or the single
error-object shape built from an error message string. -/
inductive MsgResponse where
  | result (p : RespPayload)
  | errorResp (message : String)
deriving DecidableEq, Repr

/-- src/background.js handleMessage switch body (lines 22-91), before the
surrounding try/catch: each case awaits its operation, whose thrown error
propagates; the playAudio case with no url returns the error object
directly; an unknown action throws. -/
def dispatch (req : MsgRequest) (o : ApiOracle) (st : ExtStore) : Except String MsgResponse :=
  match req.action with
  | Action.lookupWord => (o.lookupWord).map (fun v => MsgResponse.result (RespPayload.data v))
  | Action.translatePhrase => (o.translatePhrase).map (fun v => MsgResponse.result (RespPayload.data v))
  | Action.getStudySets => (o.getStudySets).map (fun v => MsgResponse.result (RespPayload.data v))
  | Action.createStudySet => (o.createStudySet).map (fun v => MsgResponse.result (RespPayload.data v))
  | Action.addFlashcard => (o.addFlashcard).map (fun v => MsgResponse.result (RespPayload.data v))
  | Action.login => (o.login).map (fun v => MsgResponse.result (RespPayload.data v))
  | Action.googleLogin => (o.googleLogin).map (fun v => MsgResponse.result (RespPayload.data v))
  | Action.uploadImage => (o.uploadImage).map (fun v => MsgResponse.result (RespPayload.data v))
  | Action.logout => (o.logout).map (fun v => MsgResponse.result (RespPayload.data v))
  | Action.getCurrentUser => Except.ok (MsgResponse.result (RespPayload.userData st.user))
  | Action.checkAuth => Except.ok (MsgResponse.result (RespPayload.authState (checkAuth st)))
  | Action.syncAuth => Except.ok (MsgResponse.result RespPayload.success)
  | Action.openPopup => Except.ok (MsgResponse.result RespPayload.success)
  | Action.playAudio =>
    if truthyS req.url then
      (o.playAudio).map (fun _ => MsgResponse.result RespPayload.success)
    else Except.ok (MsgResponse.errorResp "No URL provided")
  | Action.unknown s => Except.error ("Unknown action: " ++ s)

/-- src/background.js handleMessage (lines 20-96): the switch wrapped in
try/catch — any thrown error is converted into the \x7berror\x7d response shape,
so the sender always receives a response. -/
def handleMessage (req : MsgRequest) (o : ApiOracle) (st : ExtStore) : MsgResponse :=
  match dispatch req o st with
  | Except.ok r => r
  | Except.error e => MsgResponse.errorResp e

/-- True exactly for the syncAuth message, the only message that writes the
extension's storage. -/
def isWriteMsg : SyncMsg → Bool
  | SyncMsg.syncAuth _ _ => true
  | SyncMsg.setWebAuth _ _ => false

/-- Whether a fetch body is the result of JSON serialization. -/
def isJsonSerialized : Option SentBody → Bool
  | some (SentBody.jsonString _) => true
  | _ => false

/-- Whether a caller-supplied body is a FormData payload. -/
def isFormBody : Option ReqBody → Bool
  | some (ReqBody.formData _) => true
  | _ => false

/-! Helper lemmas -/

@[simp] lemma truthyS_none : truthyS none = false := rfl

lemma jsOrNull_of_truthy (a : Option String) (h : truthyS a = true) : jsOrNull a = a := by
  cases a with
  | none => simp [truthyS] at h
  | some s =>
    simp only [truthyS, bne_iff_ne, ne_eq, decide_eq_true_eq] at h
    simp [jsOrNull, h]

/-! Claim theorems -/

/-- C1: the claim says a 401 triggers at most one refresh and one retry, a
second 401 after the retry being terminal. In the code the retried request is
issued through the same unguarded apiRequest call, so when the server answers
401 to both the original request and the retry while the refresh endpoint
keeps succeeding, a second refresh (and retry) is performed: two refresh
attempts happen for one logical request. -/
theorem apiRequest_second_401_triggers_second_refresh :
    apiRequest false ⟨some "tok0", none⟩
      [⟨401, none⟩, ⟨401, none⟩, ⟨200, none⟩]
      [some "tok1", some "tok2"] =
    ⟨⟨some "tok2", none⟩, Outcome.success ⟨200, none⟩, 2⟩ := by rfl

/-- C6: whenever a run of the pipeline reaches a 401 whose refresh attempt
fails, the persisted credentials are cleared (both accessToken and user
absent) and the run surfaces the session-expired error to the caller. -/
theorem apiRequest_refresh_failure_clears_and_surfaces
    (st : ExtStore) (resps : List HttpResp) (refreshes : List (Option String))
    (h : reachesFailedRefresh resps refreshes = true) :
    (apiRequest false st resps refreshes).store = ⟨none, none⟩ ∧
    (apiRequest false st resps refreshes).outcome =
      Outcome.err "Session expired. Please log in again." := by
  induction resps generalizing st refreshes with
  | nil => simp [reachesFailedRefresh] at h
  | cons r rest ih =>
    cases refreshes with
    | nil =>
      simp only [reachesFailedRefresh] at h
      simp [apiRequest, h, clearAuthToken]
    | cons rf rrest =>
      cases rf with
      | none =>
        simp only [reachesFailedRefresh] at h
        simp [apiRequest, h, clearAuthToken]
      | some t =>
        simp only [reachesFailedRefresh, Bool.and_eq_true] at h
        have hrec := ih (setAuthToken st t) rrest h.2
        simp [apiRequest, h.1, hrec.1, hrec.2]

/-- C6 witness: a concrete single-401 run with a failing refresh clears the
store and surfaces the session-expired error. -/
theorem apiRequest_refresh_failure_witness :
    (apiRequest false ⟨some "tok", some ⟨"u"⟩⟩ [⟨401, none⟩] []).store = ⟨none, none⟩ ∧
    (apiRequest false ⟨some "tok", some ⟨"u"⟩⟩ [⟨401, none⟩] []).outcome =
      Outcome.err "Session expired. Please log in again." :=
  apiRequest_refresh_failure_clears_and_surfaces ⟨some "tok", some ⟨"u"⟩⟩ [⟨401, none⟩] [] rfl

/-- C3: the claim says every authorized request, including those that supply
their own headers object such as the form-data image upload, carries the
Authorization header exactly once. The headers apiRequest constructs do
carry it once, but the trailing spread of the caller options replaces them
with the caller's headers object, so the upload request goes out with no
Authorization header at all. -/
theorem uploadImage_authorization_dropped :
    countKey (buildHeaders (uploadImageOpts "img") (some "tok")) "Authorization" = 1 ∧
    countKey (fetchHeaders (uploadImageOpts "img") ⟨some "tok", none⟩) "Authorization" = 0 :=
  ⟨rfl, rfl⟩

/-- C8 counterexample: a FormData body passed without a caller headers object
is sent with the pipeline-set Content-Type: application/json header, so the
pipeline does not set Content-Type only for JSON bodies. -/
theorem formData_gets_pipeline_content_type :
    fetchBody ⟨some "POST", none, some (ReqBody.formData "fd"), false⟩ =
      some (SentBody.formData "fd") ∧
    countKey (fetchHeaders ⟨some "POST", none, some (ReqBody.formData "fd"), false⟩
      ⟨none, none⟩) "Content-Type" = 1 :=
  ⟨rfl, rfl⟩

/-- C8 amended: the pipeline serializes a body as JSON exactly when it is
present and not FormData; however the Content-Type header is set by the
pipeline for every request whose caller supplies no headers object,
regardless of body type, and a caller-supplied headers object passes
through as-is — which is how the image upload (with its empty headers
object) is sent without a pipeline-set Content-Type. -/
theorem fetchBody_and_contentType (opts : ReqOptions) (st : ExtStore) (fd : String) :
    isJsonSerialized (fetchBody opts) = (opts.body.isSome && !(isFormBody opts.body)) ∧
    countKey (fetchHeaders opts st) "Content-Type" =
      (match opts.headers with
       | none => 1
       | some h => countKey h "Content-Type") ∧
    countKey (fetchHeaders (uploadImageOpts fd) st) "Content-Type" = 0 := by
  refine ⟨?_, ?_, rfl⟩
  · match hb : opts.body with
    | none => simp [fetchBody, hb, isJsonSerialized, isFormBody]
    | some (ReqBody.jsonVal v) => simp [fetchBody, hb, serializeBody, isJsonSerialized, isFormBody]
    | some (ReqBody.formData f) => simp [fetchBody, hb, serializeBody, isJsonSerialized, isFormBody]
  · match hh : opts.headers with
    | some h => simp [fetchHeaders, hh]
    | none =>
      simp only [fetchHeaders, hh, buildHeaders, Option.getD]
      cases hskip : opts.skipAuth with
      | true => simp [countKey, mergeObj]
      | false =>
        cases hst : getAuthToken st with
        | none => simp [countKey, mergeObj]
        | some t => simp [countKey, mergeObj, setKey]

/-- C2: the claim says that with the extension authenticated and the peer
snapshot reporting no access token, one push is sent and the extension
credential is left unchanged. The code does send exactly one push, but the
separate web-app-logged-out check (content.js line 134) fires on the very
same snapshot and sends syncAuth with a null token, clearing the extension
credential in the same cycle. -/
theorem push_cycle_clears_extension :
    syncAuthWithWebApp (some ⟨none, none⟩) ⟨some "tokT", some ⟨"u"⟩⟩ =
      (⟨none, none⟩,
       [SyncMsg.setWebAuth (some "tokT") (some ⟨"u"⟩), SyncMsg.syncAuth none none]) := by
  rfl

/-- C5: when the peer snapshot carries a truthy access token and the
extension is unauthenticated or holds a different token, the cycle adopts
the peer credential: the extension store ends up with exactly the peer
token and peer user, via a single syncAuth message. -/
theorem adopt_overwrites_extension (w : WebAuth) (st : ExtStore)
    (htr : truthyS w.accessToken = true)
    (hdiff : (checkAuth st).isAuthenticated = false ∨ (checkAuth st).accessToken ≠ w.accessToken) :
    syncAuthWithWebApp (some w) st =
      ({ accessToken := w.accessToken, user := w.user },
       [SyncMsg.syncAuth w.accessToken w.user]) := by
  have hcond : (!(checkAuth st).isAuthenticated ||
      ((checkAuth st).accessToken != w.accessToken)) = true := by
    rcases hdiff with hna | hd
    · simp [hna]
    · simp [bne_iff_ne, hd]
  simp [syncAuthWithWebApp, webLoggedOutSignal, syncAuthStep1, htr, hcond, handleSyncAuth]

/-- C5 witness: with the peer holding token t1 and the extension holding a
different token t2, the cycle leaves the extension with the peer credential. -/
theorem adopt_overwrites_extension_witness :
    syncAuthWithWebApp (some ⟨some "t1", some ⟨"alice"⟩⟩) ⟨some "t2", some ⟨"bob"⟩⟩ =
      (⟨some "t1", some ⟨"alice"⟩⟩, [SyncMsg.syncAuth (some "t1") (some ⟨"alice"⟩)]) :=
  adopt_overwrites_extension ⟨some "t1", some ⟨"alice"⟩⟩ ⟨some "t2", some ⟨"bob"⟩⟩
    (by decide) (Or.inr (by decide))

/-- C9: handling LINGORA_INVALID_TOKEN removes both stored credential keys,
whatever the prior state, and posts no push message to the page. -/
theorem invalid_token_clears_extension (st : ExtStore) :
    (handleInvalidToken st).1 = ⟨none, none⟩ ∧
    ((handleInvalidToken st).2.all (fun m => !(isPushMsg m))) = true := by
  simp [handleInvalidToken, handleSyncAuth, isPushMsg, truthyS]

/-- C4 counterexample: with a null peer snapshot (the injected reader threw)
and an authenticated extension, the first cycle changes no state and sends
one push — and a second cycle on unchanged inputs sends the identical push
again, so the claim that a second run sends no extra messages is false. -/
theorem reconcile_resends_push :
    (syncAuthWithWebApp none ⟨some "tokN", none⟩).1 = ⟨some "tokN", none⟩ ∧
    (syncAuthWithWebApp none ⟨some "tokN", none⟩).2 =
      [SyncMsg.setWebAuth (some "tokN") none] ∧
    (syncAuthWithWebApp none (syncAuthWithWebApp none ⟨some "tokN", none⟩).1).2 =
      [SyncMsg.setWebAuth (some "tokN") none] := by
  refine ⟨rfl, rfl, rfl⟩

/-- C4 amended: reconciliation is idempotent on storage — a second cycle on
the state left by the first changes nothing and performs no storage writes
(no syncAuth message at all) — and it sends no messages whatsoever, except
that with a null peer snapshot and an authenticated extension the same push
message is re-sent on every cycle. -/
theorem reconcile_idempotent_on_storage (web : Option WebAuth) (st : ExtStore) :
    (syncAuthWithWebApp web (syncAuthWithWebApp web st).1).1 = (syncAuthWithWebApp web st).1 ∧
    ((syncAuthWithWebApp web (syncAuthWithWebApp web st).1).2.all
        (fun m => !(isWriteMsg m))) = true ∧
    ((syncAuthWithWebApp web (syncAuthWithWebApp web st).1).2 = [] ∨
      (web = none ∧
        (syncAuthWithWebApp web (syncAuthWithWebApp web st).1).2 =
          (syncAuthWithWebApp web st).2)) := by
  cases web with
  | none =>
    by_cases hs : truthyS st.accessToken = true
    · simp [syncAuthWithWebApp, webLoggedOutSignal, syncAuthStep1, checkAuth, hs, isWriteMsg]
    · simp only [Bool.not_eq_true] at hs
      simp [syncAuthWithWebApp, webLoggedOutSignal, syncAuthStep1, checkAuth, hs, isWriteMsg]
  | some w =>
    by_cases hw : truthyS w.accessToken = true
    · by_cases hc : truthyS st.accessToken = false ∨ ¬jsOrNull st.accessToken = w.accessToken
      · have hj : jsOrNull w.accessToken = w.accessToken := jsOrNull_of_truthy w.accessToken hw
        simp [syncAuthWithWebApp, webLoggedOutSignal, syncAuthStep1, checkAuth,
          handleSyncAuth, hw, hc, hj, isWriteMsg]
      · simp [syncAuthWithWebApp, webLoggedOutSignal, syncAuthStep1, checkAuth, hw, hc, isWriteMsg]
    · simp only [Bool.not_eq_true] at hw
      by_cases hs : truthyS st.accessToken = true
      · simp [syncAuthWithWebApp, webLoggedOutSignal, syncAuthStep1, checkAuth,
          handleSyncAuth, hw, hs, isWriteMsg]
      · simp only [Bool.not_eq_true] at hs
        simp [syncAuthWithWebApp, webLoggedOutSignal, syncAuthStep1, checkAuth, hw, hs, isWriteMsg]

/-- C7 counterexample: during login with a stored old credential, the state
after the first of the two storage writes pairs the new accessToken with the
old user — a mixture distinct from both the complete old and the complete
new Credential, so the update is observably not atomic. -/
theorem login_intermediate_mixes_credentials :
    (⟨some "newTok", some ⟨"bob"⟩⟩ : ExtStore) ∈
      loginStates (some ⟨some "newTok", some ⟨"alice"⟩⟩) ⟨some "oldTok", some ⟨"bob"⟩⟩ ∧
    (⟨some "newTok", some ⟨"bob"⟩⟩ : ExtStore) ≠ ⟨some "oldTok", some ⟨"bob"⟩⟩ ∧
    (⟨some "newTok", some ⟨"bob"⟩⟩ : ExtStore) ≠ ⟨some "newTok", some ⟨"alice"⟩⟩ := by
  refine ⟨?_, by decide, by decide⟩
  simp [loginStates, truthyS, setAuthToken]

/-- C7 amended: external sync replaces the Credential in a single storage
operation (one observable transition), and each update ends in the complete
new value; but login performs two separate writes whose intermediate state
pairs the new accessToken with the previous user, and refresh rewrites only
the accessToken, leaving the stored user in place. -/
theorem credential_update_sequences (md : LoginResp) (tok newTok : String)
    (a : Option String) (u : Option UserProf) (st : ExtStore)
    (h : md.accessToken = some tok) (hne : tok ≠ "") :
    loginStates (some md) st = [st, ⟨some tok, st.user⟩, ⟨some tok, md.user⟩] ∧
    refreshStates newTok st = [st, ⟨some newTok, st.user⟩] ∧
    syncAuthStates a u st = [st, handleSyncAuth a u st] := by
  refine ⟨?_, rfl, rfl⟩
  simp [loginStates, h, truthyS, hne, setAuthToken]

/-- C7 amended witness: a concrete login over an old credential exhibits the
three observable states, the middle one mixing new token with old user. -/
theorem credential_update_sequences_witness :
    loginStates (some ⟨some "t", some ⟨"alice"⟩⟩) ⟨some "o", some ⟨"bob"⟩⟩ =
      [⟨some "o", some ⟨"bob"⟩⟩, ⟨some "t", some ⟨"bob"⟩⟩, ⟨some "t", some ⟨"alice"⟩⟩] ∧
    refreshStates "n" ⟨some "o", some ⟨"bob"⟩⟩ =
      [⟨some "o", some ⟨"bob"⟩⟩, ⟨some "n", some ⟨"bob"⟩⟩] ∧
    syncAuthStates none none ⟨some "o", some ⟨"bob"⟩⟩ =
      [⟨some "o", some ⟨"bob"⟩⟩, handleSyncAuth none none ⟨some "o", some ⟨"bob"⟩⟩] :=
  credential_update_sequences ⟨some "t", some ⟨"alice"⟩⟩ "t" "n" none none
    ⟨some "o", some ⟨"bob"⟩⟩ rfl (by decide)

/-- C10: every message handled by the background dispatcher yields either the
operation result or the single error-object shape; in particular an unknown
action is answered with its error object rather than a raised fault, and a
thrown api error is converted into the error shape. -/
theorem handleMessage_response_shape :
    (∀ (req : MsgRequest) (o : ApiOracle) (st : ExtStore),
        (∃ p, handleMessage req o st = MsgResponse.result p) ∨
        ∃ m, handleMessage req o st = MsgResponse.errorResp m) ∧
    (∀ (s : String) (u a : Option String) (uu : Option UserProf) (o : ApiOracle) (st : ExtStore),
        handleMessage ⟨Action.unknown s, u, a, uu⟩ o st =
          MsgResponse.errorResp ("Unknown action: " ++ s)) ∧
    (∀ (e : String) (o : ApiOracle) (u a : Option String) (uu : Option UserProf) (st : ExtStore),
        handleMessage ⟨Action.lookupWord, u, a, uu⟩ { o with lookupWord := Except.error e } st =
          MsgResponse.errorResp e) := by
  refine ⟨?_, ?_, ?_⟩
  · intro req o st
    cases hm : handleMessage req o st with
    | result p => exact Or.inl ⟨p, rfl⟩
    | errorResp m => exact Or.inr ⟨m, rfl⟩
  · intro s u a uu o st
    simp [handleMessage, dispatch]
  · intro e o u a uu st
    simp [handleMessage, dispatch, Except.map]

end Lingora
